import Mathlib

/-!
Shallow embedding of `demos/sample_azure_iot_pnp/sample_azure_iot_pnp.c`
(Azure IoT Plug-and-Play thermostat sample).

Doubles are embedded as exact rationals (`ℚ`): every arithmetic operation the
sample performs on its temperature state (assignment, comparison, addition,
division by a count) is modelled exactly.  Machine integers that never
overflow in the modelled scenarios (`uint32_t` counters, versions, delays)
are embedded as `ℕ`.

The Azure middleware and FreeRTOS collaborators (JSON reader/writer,
properties iterator, backoff-algorithm library, transport) are not part of
the repository source; where their behaviour decides a claim they are
modelled from the specification, as marked in the corresponding doc comment.
`configASSERT( cond )` is FreeRTOS's assertion: when `cond` is false the
process halts; this is modelled by an explicit `halted` outcome.
-/

/-! ## Configuration constants (lines 57-133 of the source) -/

def sampleazureiotRETRY_MAX_ATTEMPTS : ℕ := 5

def sampleazureiotRETRY_MAX_BACKOFF_DELAY_MS : ℕ := 5000

def sampleazureiotRETRY_BACKOFF_BASE_MS : ℕ := 500

def sampleazureiotPROPERTY_TARGET_TEMPERATURE_TEXT : String := "targetTemperature"

def sampleazureiotPROPERTY_MAX_TEMPERATURE_TEXT : String := "maxTempSinceLastReboot"

def sampleazureiotCOMMAND_MAX_MIN_REPORT : String := "getMaxMinReport"

def sampleazureiotCOMMAND_MAX_TEMP : String := "maxTemp"

def sampleazureiotCOMMAND_MIN_TEMP : String := "minTemp"

def sampleazureiotCOMMAND_TEMP_VERSION : String := "avgTemp"

def sampleazureiotCOMMAND_START_TIME : String := "startTime"

def sampleazureiotCOMMAND_END_TIME : String := "endTime"

def sampleazureiotCOMMAND_FAKE_END_TIME : String := "2023-01-10T10:00:00Z"

def sampleazureiotDEFAULT_START_TEMP_COUNT : ℕ := 1

def sampleazureiotDEFAULT_START_TEMP_CELSIUS : ℚ := 22

/-! ## Device state (the six static variables, lines 193-199) -/

/-- The six `static` device variables of the sample, gathered in one record:
`xDeviceCurrentTemperature`, `xDeviceMaximumTemperature`,
`xDeviceMinimumTemperature`, `xDeviceTemperatureSummation`,
`ulDeviceTemperatureCount`, `xDeviceAverageTemperature`. -/
structure DeviceState where
  current : ℚ
  maximum : ℚ
  minimum : ℚ
  summation : ℚ
  count : ℕ
  average : ℚ
  deriving Repr, DecidableEq

/-- Initial values of the device variables (lines 193-199): every temperature
field starts at `sampleazureiotDEFAULT_START_TEMP_CELSIUS` (22.0) and the
count starts at `sampleazureiotDEFAULT_START_TEMP_COUNT` (1). -/
def initialDeviceState : DeviceState :=
  { current := sampleazureiotDEFAULT_START_TEMP_CELSIUS
    maximum := sampleazureiotDEFAULT_START_TEMP_CELSIUS
    minimum := sampleazureiotDEFAULT_START_TEMP_CELSIUS
    summation := sampleazureiotDEFAULT_START_TEMP_CELSIUS
    count := sampleazureiotDEFAULT_START_TEMP_COUNT
    average := sampleazureiotDEFAULT_START_TEMP_CELSIUS }

/-- Embedding of `prvUpdateLocalProperties` (lines 539-567).  The C function
mutates the six static variables and writes `*pxOutMaxTempChanged`; here it
maps the old state to the new state together with that boolean.  The unused
`ulPropertyVersion` parameter is kept for signature faithfulness. -/
def prvUpdateLocalProperties (xNewTemperatureValue : ℚ) (ulPropertyVersion : ℕ)
    (s : DeviceState) : DeviceState × Bool :=
  let current := xNewTemperatureValue
  let upd :=
    if current > s.maximum then
      (s.minimum, current, true)
    else if current < s.minimum then
      (current, s.maximum, false)
    else
      (s.minimum, s.maximum, false)
  let count := s.count + 1
  let summation := s.summation + current
  let average := summation / (count : ℚ)
  ({ current := current
     maximum := upd.2.1
     minimum := upd.1
     summation := summation
     count := count
     average := average }, upd.2.2)

/-- Applying a whole sequence of desired temperatures in order, starting from
a given state (repeated calls of `prvUpdateLocalProperties`; the version
argument is irrelevant to the state update and fixed to 0 here). -/
def applyTemperatures (s : DeviceState) (vs : List ℚ) : DeviceState :=
  vs.foldl (fun st v => (prvUpdateLocalProperties v 0 st).1) s

/-! ## Desired-property documents and `prvProcessProperties` (lines 436-533) -/

/-- A JSON value at a property position, as far as
`AzureIoTJSONReader_GetTokenDouble` distinguishes it: a numeric token, or any
non-numeric token (whose extraction as a double fails with a non-success
result). -/
inductive JSONValue where
  | num (q : ℚ)
  | nonNumeric
  deriving Repr, DecidableEq

/-- Modelled from the spec: one entry of a desired-property document as
produced by the middleware iterator
`AzureIoTHubClientProperties_GetNextComponentProperty` (library code not in
the repository): a component name (empty when the property is top-level), a
property name the reader is positioned on, and the value token that follows
it. -/
structure PropertyEntry where
  componentName : String
  name : String
  value : JSONValue
  deriving Repr, DecidableEq

/-- Modelled from the spec: a desired-property document after tokenization.
`version` is the result of
`AzureIoTHubClientProperties_GetPropertiesVersion` (`none` when extracting
the version from the document header fails), and `entries` is the ordered
sequence of (component, name, value) items the iterator yields before
reporting `eAzureIoTErrorEndOfProperties`. -/
structure PropertyDocument where
  version : Option ℕ
  entries : List PropertyEntry
  deriving Repr, DecidableEq

/-- Failure results a property sync can end with. -/
inductive SyncError where
  | malformedVersion
  | typeMismatch
  deriving Repr, DecidableEq

/-- The property loop of `prvProcessProperties` (lines 481-519), iterating
over the remaining entries with the currently extracted temperature
(`*pxOutTemperature`, initialised to 0.0 at line 464):
an entry with a non-empty component name is skipped
(`prvSkipPropertyAndValue`, line 491); an entry named
`targetTemperature` has its value read with
`AzureIoTJSONReader_GetTokenDouble` — a non-numeric value breaks out of the
loop with the failing result (lines 501-507), a numeric one replaces the
extracted temperature; any other entry is skipped (line 517).  Exhausting
the entries is the `eAzureIoTErrorEndOfProperties` condition, turned into
success at line 528. -/
def propertyLoop : List PropertyEntry → ℚ → Except SyncError ℚ
  | [], temp => .ok temp
  | e :: rest, temp =>
    if e.componentName.length > 0 then
      propertyLoop rest temp
    else if e.name = sampleazureiotPROPERTY_TARGET_TEMPERATURE_TEXT then
      match e.value with
      | .num v => propertyLoop rest v
      | .nonNumeric => .error .typeMismatch
    else
      propertyLoop rest temp

/-- Embedding of `prvProcessProperties` (lines 454-533): extract the version
(failure is fatal, line 471), then run the property loop from temperature
0.0; on reaching end-of-properties return success with the last matched
`targetTemperature` value and the version. -/
def prvProcessProperties (doc : PropertyDocument) : Except SyncError (ℚ × ℕ) :=
  match doc.version with
  | none => .error .malformedVersion
  | some ver =>
    match propertyLoop doc.entries 0 with
    | .ok temp => .ok (temp, ver)
    | .error e => .error e

/-! ## Acknowledgment emission and `prvHandlePropertyUpdate` (lines 664-687) -/

/-- Outbound reported-property documents the property path can emit: the
writable-property acknowledgment built by `prvAckIncomingTemperature`
(carrying the applied value and the version) and the maximum-temperature
report built by `prvSendNewMaxTemp` (carrying the reported value). -/
inductive Emission where
  | ack (value : ℚ) (version : ℕ)
  | maxReport (value : ℚ)
  deriving Repr, DecidableEq

/-- Embedding of `prvHandlePropertyUpdate` (lines 664-687): process the
document; on success update the local properties, always emit the
acknowledgment (`prvAckIncomingTemperature`, line 676), and emit the
maximum-temperature report only when the maximum changed (lines 678-681);
on any processing error only log, leaving state untouched and emitting
nothing (lines 683-686). -/
def prvHandlePropertyUpdate (s : DeviceState) (doc : PropertyDocument) :
    DeviceState × List Emission :=
  match prvProcessProperties doc with
  | .error _ => (s, [])
  | .ok (temp, ver) =>
    let r := prvUpdateLocalProperties temp ver s
    (r.1, .ack temp ver :: (if r.2 then [.maxReport temp] else []))

/-! ## Command dispatch: `prvInvokeMaxMinCommand` and `prvHandleCommand`
(lines 274-433) -/

/-- One append operation recorded by the JSON writer while building a command
response payload (each successful append writes at least one byte into
`ucCommandPayloadBuffer`). -/
inductive WriterItem where
  | beginObject
  | doubleProp (name : String) (value : ℚ)
  | stringProp (name : String) (value : String)
  | endObject
  deriving Repr, DecidableEq

/-- Modelled from the spec: an inbound command request as delivered to the
command callback.  `pucCommandName` is the command name
(`usCommandNameLength` is its length); `payloadSince` is the result of
reading the single string argument from the payload with
`AzureIoTJSONReader_NextToken` / `AzureIoTJSONReader_GetTokenString`
(library code not in the repository): `none` when that parse fails,
`some s` when it yields the string `s`. -/
structure CommandRequest where
  pucCommandName : String
  payloadSince : Option String
  deriving Repr, DecidableEq

/-- Embedding of `prvInvokeMaxMinCommand` (lines 274-343): read the "since"
string from the payload (failure propagates the failing result), then append
begin-object, the three temperature properties (maximum, minimum, average),
the echoed start time, the fake end time, and end-object. -/
def prvInvokeMaxMinCommand (s : DeviceState) (payloadSince : Option String) :
    Except Unit (List WriterItem) :=
  match payloadSince with
  | none => .error ()
  | some since =>
    .ok [WriterItem.beginObject,
         WriterItem.doubleProp sampleazureiotCOMMAND_MAX_TEMP s.maximum,
         WriterItem.doubleProp sampleazureiotCOMMAND_MIN_TEMP s.minimum,
         WriterItem.doubleProp sampleazureiotCOMMAND_TEMP_VERSION s.average,
         WriterItem.stringProp sampleazureiotCOMMAND_START_TIME since,
         WriterItem.stringProp sampleazureiotCOMMAND_END_TIME sampleazureiotCOMMAND_FAKE_END_TIME,
         WriterItem.endObject]

/-- The constant `sampleazureiotCOMMAND_EMPTY_PAYLOAD` (an empty JSON object)
sent as the body of 404 and 501 responses. -/
def sampleazureiotCOMMAND_EMPTY_PAYLOAD : List WriterItem :=
  [WriterItem.beginObject, WriterItem.endObject]

/-- Embedding of `prvHandleCommand` (lines 349-433).  The name is matched by
exact length then content (lines 363-366).  On match, the handler runs; on
handler success the response is sent with code 200 and the built payload
only when `AzureIoTJSONWriter_GetBytesUsed` is positive (lines 383-397,
modelled as the number of recorded writer items) — otherwise nothing is
sent; on handler failure a 501 with the empty payload is sent (lines
399-413).  On no match a 404 with the empty payload is sent (lines
415-432).  The result is the response sent, `none` when no response is
sent. -/
def prvHandleCommand (s : DeviceState) (m : CommandRequest) :
    Option (ℕ × List WriterItem) :=
  if m.pucCommandName.length = sampleazureiotCOMMAND_MAX_MIN_REPORT.length ∧
      m.pucCommandName = sampleazureiotCOMMAND_MAX_MIN_REPORT then
    match prvInvokeMaxMinCommand s m.payloadSince with
    | .ok items =>
      if 0 < items.length then some (200, items) else none
    | .error _ => some (501, sampleazureiotCOMMAND_EMPTY_PAYLOAD)
  else
    some (404, sampleazureiotCOMMAND_EMPTY_PAYLOAD)

/-! ## Backoff algorithm and `prvConnectToServerWithBackoffRetries`
(lines 1010-1064) -/

/-- Modelled from the spec: the `BackoffAlgorithmContext_t` of the
backoff-algorithm library (library code not in the repository): fixed base
delay, delay cap and attempt bound, plus the mutable attempt counter. -/
structure BackoffAlgorithmContext where
  backOffBase : ℕ
  maxBackOffDelay : ℕ
  maxRetryAttempts : ℕ
  attemptsDone : ℕ
  deriving Repr, DecidableEq

/-- Modelled from the spec: `BackoffAlgorithm_InitializeParams` (library code
not in the repository) — resets the attempt count to zero and records the
configuration. -/
def backoffAlgorithmInitializeParams (base maxDelay maxAttempts : ℕ) :
    BackoffAlgorithmContext :=
  { backOffBase := base
    maxBackOffDelay := maxDelay
    maxRetryAttempts := maxAttempts
    attemptsDone := 0 }

/-- Outcome of one backoff consultation: a next delay to sleep, or retries
exhausted. -/
inductive BackoffAlgorithmStatus where
  | success (nextBackOff : ℕ)
  | retriesExhausted
  deriving Repr, DecidableEq

/-- Modelled from the spec: `BackoffAlgorithm_GetNextBackoff` (library code
not in the repository).  While attempts remain, the delay is the capped
exponential `min maxDelay (base * 2 ^ attemptsDone)` jittered by the random
draw uniformly into `[0, cap]` (full jitter), and the attempt counter
increments; once the attempt bound is reached the call reports exhaustion
and produces no delay. -/
def backoffAlgorithmGetNextBackoff (ctx : BackoffAlgorithmContext) (rand : ℕ) :
    BackoffAlgorithmStatus × BackoffAlgorithmContext :=
  if ctx.attemptsDone < ctx.maxRetryAttempts then
    let cap := min ctx.maxBackOffDelay (ctx.backOffBase * 2 ^ ctx.attemptsDone)
    (.success (rand % (cap + 1)), { ctx with attemptsDone := ctx.attemptsDone + 1 })
  else
    (.retriesExhausted, ctx)

/-- Trace of one run of the connection supervisor: the returned status
(0 success, 1 failure, line 1063), the backoff delays slept (line 1058), and
the number of `TLS_Socket_Connect` attempts made. -/
structure ConnectTrace where
  status : ℕ
  delays : List ℕ
  connectAttempts : ℕ
  deriving Repr, DecidableEq

/-- The retry loop of `prvConnectToServerWithBackoffRetries` (lines
1030-1061).  `connectOk i` is the outcome of the `i`-th
`TLS_Socket_Connect` attempt and `rand i` the `i`-th `configRAND32()` draw
(the transport and RNG are external collaborators).  Each iteration attempts
a connect; on failure it consults the backoff algorithm: exhaustion exits
the loop, a successful consultation sleeps the returned delay and repeats. -/
def connectRetryLoop (ctx : BackoffAlgorithmContext) (connectOk : ℕ → Bool)
    (rand : ℕ → ℕ) (i : ℕ) : ConnectTrace :=
  if connectOk i then
    { status := 0, delays := [], connectAttempts := 1 }
  else
    match h : backoffAlgorithmGetNextBackoff ctx (rand i) with
    | (.retriesExhausted, _) =>
      { status := 1, delays := [], connectAttempts := 1 }
    | (.success d, ctx2) =>
      have : ctx2.maxRetryAttempts - ctx2.attemptsDone <
          ctx.maxRetryAttempts - ctx.attemptsDone := by
        unfold backoffAlgorithmGetNextBackoff at h
        split at h
        · rename_i hlt
          injection h with h1 h2
          subst h2
          dsimp only
          omega
        · simp at h
      let rest := connectRetryLoop ctx2 connectOk rand (i + 1)
      { status := rest.status
        delays := d :: rest.delays
        connectAttempts := rest.connectAttempts + 1 }
  termination_by ctx.maxRetryAttempts - ctx.attemptsDone

/-- Embedding of `prvConnectToServerWithBackoffRetries` (lines 1010-1064):
initialize a fresh backoff context from the three `sampleazureiot` retry
constants (lines 1021-1024), then run the retry loop; the returned status is
0 exactly when the transport connect eventually succeeded (line 1063). -/
def prvConnectToServerWithBackoffRetries (connectOk : ℕ → Bool) (rand : ℕ → ℕ) :
    ConnectTrace :=
  connectRetryLoop
    (backoffAlgorithmInitializeParams sampleazureiotRETRY_BACKOFF_BASE_MS
      sampleazureiotRETRY_MAX_BACKOFF_DELAY_MS
      sampleazureiotRETRY_MAX_ATTEMPTS)
    connectOk rand 0

/-! ## Session-loop control flow in `prvAzureDemoTask` (lines 800-908) -/

/-- Control position of the demo task after a step of its loop.  `halted` is
the state a failing `configASSERT` leaves the process in (FreeRTOS
assertion: the process stops; modelled from the spec, which notes the
sample's assertion-on-failure termination behaviour). -/
inductive SessionPhase where
  | connecting
  | connected
  | streaming
  | disconnecting
  | halted
  deriving Repr, DecidableEq

/-- The connection step of the outer loop (lines 808-811): the status of
`prvConnectToServerWithBackoffRetries` is fed to
`configASSERT( ulStatus == 0 )` — a zero status proceeds towards the
connected session, any nonzero status (retry exhaustion) fails the assertion
and halts the process. -/
def connectPhaseStep (ulStatus : ℕ) : SessionPhase :=
  if ulStatus = 0 then .connected else .halted

/-- Outcomes of the external protocol operations of one iteration of the
streaming loop (lines 866-885): the telemetry publish
(`AzureIoTHubClient_SendTelemetry`), the max-temperature report publish
inside `prvSendNewMaxTemp` (`AzureIoTHubClient_SendPropertiesReported`), and
the inbound poll (`AzureIoTHubClient_ProcessLoop`). -/
structure StreamingOutcome where
  telemetryOk : Bool
  maxReportOk : Bool
  processLoopOk : Bool
  deriving Repr, DecidableEq

/-- One iteration of the inner streaming loop (lines 866-885): the telemetry
publish result is asserted (`configASSERT`, line 873) — failure halts; the
max-temperature report failure is only logged inside `prvSendNewMaxTemp`
(lines 606-609) and does not affect control flow; the process-loop result is
asserted (line 880) — failure halts; otherwise the loop delays and repeats,
staying in the streaming phase.  The loop has no exit: the
unsubscribe/disconnect code at lines 887-907 is only reached after this
`for( ;; )` ends. -/
def streamingStep (o : StreamingOutcome) : SessionPhase :=
  if o.telemetryOk = false then .halted
  else if o.processLoopOk = false then .halted
  else .streaming

/-! ## Helper lemmas about the temperature update -/

/-- One `prvUpdateLocalProperties` call preserves the ordering invariant and
performs the documented accumulator updates. -/
lemma prvUpdateLocalProperties_step (v : ℚ) (ver : ℕ) (s : DeviceState)
    (h1 : s.minimum ≤ s.current) (h2 : s.current ≤ s.maximum) :
    (prvUpdateLocalProperties v ver s).1.minimum ≤ (prvUpdateLocalProperties v ver s).1.current ∧
    (prvUpdateLocalProperties v ver s).1.current ≤ (prvUpdateLocalProperties v ver s).1.maximum ∧
    (prvUpdateLocalProperties v ver s).1.count = s.count + 1 ∧
    (prvUpdateLocalProperties v ver s).1.summation = s.summation + v ∧
    (prvUpdateLocalProperties v ver s).1.average =
      (prvUpdateLocalProperties v ver s).1.summation /
        ((prvUpdateLocalProperties v ver s).1.count : ℚ) := by
  unfold prvUpdateLocalProperties
  dsimp only
  split_ifs with ha hb
  · exact ⟨le_trans h1 (le_trans h2 (le_of_lt ha)), le_refl _, rfl, rfl, rfl⟩
  · exact ⟨le_refl _, le_trans (le_of_lt hb) (le_trans h1 h2), rfl, rfl, rfl⟩
  · exact ⟨not_lt.mp hb, not_lt.mp ha, rfl, rfl, rfl⟩

/-- Folding a sequence of updates preserves the ordering invariant, adds each
value to the summation, counts each value, and keeps the average equal to
summation over count. -/
lemma applyTemperatures_facts (vs : List ℚ) :
    ∀ s : DeviceState, s.minimum ≤ s.current → s.current ≤ s.maximum →
    s.average = s.summation / (s.count : ℚ) →
    (applyTemperatures s vs).minimum ≤ (applyTemperatures s vs).current ∧
    (applyTemperatures s vs).current ≤ (applyTemperatures s vs).maximum ∧
    (applyTemperatures s vs).count = s.count + vs.length ∧
    (applyTemperatures s vs).summation = s.summation + vs.sum ∧
    (applyTemperatures s vs).average =
      (applyTemperatures s vs).summation / ((applyTemperatures s vs).count : ℚ) := by
  induction vs with
  | nil =>
    intro s h1 h2 h3
    exact ⟨h1, h2, by simp [applyTemperatures], by simp [applyTemperatures],
      by simpa [applyTemperatures] using h3⟩
  | cons v rest ih =>
    intro s h1 h2 _
    have hstep := prvUpdateLocalProperties_step v 0 s h1 h2
    have hcons : applyTemperatures s (v :: rest) =
        applyTemperatures (prvUpdateLocalProperties v 0 s).1 rest := rfl
    have hrec := ih (prvUpdateLocalProperties v 0 s).1 hstep.1 hstep.2.1 hstep.2.2.2.2
    rw [hcons]
    refine ⟨hrec.1, hrec.2.1, ?_, ?_, hrec.2.2.2.2⟩
    · rw [hrec.2.2.1, hstep.2.2.1]
      simp only [List.length_cons]
      omega
    · rw [hrec.2.2.2.1, hstep.2.2.2.1]
      simp only [List.sum_cons]
      ring

/-! ## Claim theorems -/

/-- C1: for every sequence of `prvUpdateLocalProperties` calls starting from
the initial state (all temperature fields seeded with 22.0 and count 1),
after every call `minimum ≤ current ≤ maximum` holds, and `average` equals
the arithmetic mean — the summation divided by the count — of all values
ever applied, the initial seed value included: the count is the number of
applied values plus the seed, the summation is the seed plus the applied
values, and the average is exactly their quotient. -/
theorem claim_C1_update_invariant_and_average (vs : List ℚ) :
    (applyTemperatures initialDeviceState vs).minimum ≤
      (applyTemperatures initialDeviceState vs).current ∧
    (applyTemperatures initialDeviceState vs).current ≤
      (applyTemperatures initialDeviceState vs).maximum ∧
    (applyTemperatures initialDeviceState vs).count = 1 + vs.length ∧
    (applyTemperatures initialDeviceState vs).summation =
      sampleazureiotDEFAULT_START_TEMP_CELSIUS + vs.sum ∧
    (applyTemperatures initialDeviceState vs).average =
      (sampleazureiotDEFAULT_START_TEMP_CELSIUS + vs.sum) / ((1 + vs.length : ℕ) : ℚ) := by
  have h := applyTemperatures_facts vs initialDeviceState
    (by simp [initialDeviceState]) (by simp [initialDeviceState])
    (by simp [initialDeviceState, sampleazureiotDEFAULT_START_TEMP_COUNT])
  refine ⟨h.1, h.2.1, ?_, ?_, ?_⟩
  · rw [h.2.2.1]
    simp [initialDeviceState, sampleazureiotDEFAULT_START_TEMP_COUNT]
  · rw [h.2.2.2.1]
    simp [initialDeviceState]
  · rw [h.2.2.2.2, h.2.2.2.1, h.2.2.1]
    simp [initialDeviceState, sampleazureiotDEFAULT_START_TEMP_COUNT]

/-- C8: for every state of the model and every value strictly greater than
the current maximum, `prvUpdateLocalProperties` on that value reports
`maxChanged = true` and leaves the `minimum` field unchanged, whatever the
value's relation to the minimum. -/
theorem claim_C8_new_max_frame (s : DeviceState) (v : ℚ) (ver : ℕ)
    (h : v > s.maximum) :
    (prvUpdateLocalProperties v ver s).2 = true ∧
    (prvUpdateLocalProperties v ver s).1.minimum = s.minimum := by
  unfold prvUpdateLocalProperties
  dsimp only
  rw [if_pos h]
  exact ⟨rfl, rfl⟩

/-- C8 witness: applying 25.0 (strictly above the seeded maximum 22.0) to the
initial state flips the max-changed flag and keeps the minimum at 22.0. -/
theorem claim_C8_new_max_frame_witness :
    (25 : ℚ) > initialDeviceState.maximum ∧
    (prvUpdateLocalProperties 25 7 initialDeviceState).2 = true ∧
    (prvUpdateLocalProperties 25 7 initialDeviceState).1.minimum =
      initialDeviceState.minimum :=
  have h : (25 : ℚ) > initialDeviceState.maximum := by
    simp [initialDeviceState, sampleazureiotDEFAULT_START_TEMP_CELSIUS]
    norm_num
  ⟨h, claim_C8_new_max_frame initialDeviceState 25 7 h⟩

/-- Unfolding equation of the property loop at a cons cell. -/
lemma propertyLoop_cons (e : PropertyEntry) (rest : List PropertyEntry) (t : ℚ) :
    propertyLoop (e :: rest) t =
      if e.componentName.length > 0 then propertyLoop rest t
      else if e.name = sampleazureiotPROPERTY_TARGET_TEMPERATURE_TEXT then
        match e.value with
        | .num v => propertyLoop rest v
        | .nonNumeric => .error .typeMismatch
      else propertyLoop rest t := rfl

/-- Entries that carry a component name or an unrecognized property name are
skipped by the property loop without changing the extracted value. -/
lemma propertyLoop_skip (e : PropertyEntry) (rest : List PropertyEntry) (t : ℚ)
    (h : 0 < e.componentName.length ∨
      e.name ≠ sampleazureiotPROPERTY_TARGET_TEMPERATURE_TEXT) :
    propertyLoop (e :: rest) t = propertyLoop rest t := by
  rw [propertyLoop_cons]
  rcases h with h | h
  · rw [if_pos h]
  · by_cases hc : 0 < e.componentName.length
    · rw [if_pos hc]
    · rw [if_neg hc, if_neg h]

/-- A document none of whose entries is a recognized top-level
`targetTemperature` leaves the extracted value untouched. -/
lemma propertyLoop_no_match (entries : List PropertyEntry) :
    ∀ t : ℚ,
    (∀ e ∈ entries, 0 < e.componentName.length ∨
      e.name ≠ sampleazureiotPROPERTY_TARGET_TEMPERATURE_TEXT) →
    propertyLoop entries t = .ok t := by
  induction entries with
  | nil => intro t _; rfl
  | cons e rest ih =>
    intro t h
    rw [propertyLoop_skip e rest t (h e (by simp))]
    exact ih t (fun x hx => h x (by simp [hx]))

/-- C2: the property parse skips every entry with a non-empty component name
and every unrecognized property name and continues; exhausting the entries
(the end-of-properties condition) is the success result; and a document with
a successfully extracted version holding one recognized writable entry plus
two unrecognized entries — one with a component name, one without — returns
success carrying the recognized value and the version. -/
theorem claim_C2_skip_unrecognized_and_succeed :
    (∀ (e : PropertyEntry) (rest : List PropertyEntry) (t : ℚ),
      0 < e.componentName.length ∨
        e.name ≠ sampleazureiotPROPERTY_TARGET_TEMPERATURE_TEXT →
      propertyLoop (e :: rest) t = propertyLoop rest t) ∧
    (∀ t : ℚ, propertyLoop [] t = .ok t) ∧
    (∀ (ver : ℕ) (q : ℚ) (c n u : String) (v1 v2 : JSONValue),
      0 < c.length → u ≠ sampleazureiotPROPERTY_TARGET_TEMPERATURE_TEXT →
      prvProcessProperties
        ⟨some ver,
         [⟨"", sampleazureiotPROPERTY_TARGET_TEMPERATURE_TEXT, .num q⟩,
          ⟨c, n, v1⟩, ⟨"", u, v2⟩]⟩ = .ok (q, ver)) := by
  refine ⟨propertyLoop_skip, fun t => rfl, ?_⟩
  intro ver q c n u v1 v2 hc hu
  unfold prvProcessProperties
  dsimp only
  have h1 : propertyLoop
      [⟨"", sampleazureiotPROPERTY_TARGET_TEMPERATURE_TEXT, .num q⟩,
       ⟨c, n, v1⟩, ⟨"", u, v2⟩] 0 = .ok q := by
    rw [propertyLoop_cons]
    rw [if_neg (by simp), if_pos rfl]
    dsimp only
    rw [propertyLoop_skip ⟨c, n, v1⟩ _ q (Or.inl hc)]
    exact propertyLoop_no_match _ q (by simp [hu])
  rw [h1]

/-- C2 witness: a concrete three-entry document — recognized writable value
25 at version 3 plus a component-qualified entry and an unknown top-level
entry — parses to success with value 25 and version 3. -/
theorem claim_C2_skip_unrecognized_and_succeed_witness :
    prvProcessProperties
      ⟨some 3,
       [⟨"", sampleazureiotPROPERTY_TARGET_TEMPERATURE_TEXT, .num 25⟩,
        ⟨"thermostat2", "extraProp", .nonNumeric⟩,
        ⟨"", "unknownProp", .num 9⟩]⟩ = .ok (25, 3) :=
  claim_C2_skip_unrecognized_and_succeed.2.2 3 25 "thermostat2" "extraProp"
    "unknownProp" .nonNumeric (.num 9) (by decide) (by decide)

/-- C9: a failed version extraction yields the malformed-version error; a
matched `targetTemperature` entry whose value is not numeric yields the
type-mismatch error; and on any processing error `prvHandlePropertyUpdate`
leaves the device state unchanged and emits neither an acknowledgment nor a
maximum-temperature report. -/
theorem claim_C9_error_is_atomic :
    (∀ entries : List PropertyEntry,
      prvProcessProperties ⟨none, entries⟩ = .error .malformedVersion) ∧
    (∀ (rest : List PropertyEntry) (t : ℚ),
      propertyLoop
        (⟨"", sampleazureiotPROPERTY_TARGET_TEMPERATURE_TEXT, .nonNumeric⟩ :: rest)
        t = .error .typeMismatch) ∧
    (∀ (s : DeviceState) (doc : PropertyDocument) (err : SyncError),
      prvProcessProperties doc = .error err →
      prvHandlePropertyUpdate s doc = (s, [])) := by
  refine ⟨fun entries => rfl, fun rest t => ?_, ?_⟩
  · rw [propertyLoop_cons]
    rw [if_neg (by simp), if_pos rfl]
  · intro s doc err h
    unfold prvHandlePropertyUpdate
    rw [h]

/-- C9 witness: a document whose version extraction fails is rejected with
the state of the device untouched and no emission produced. -/
theorem claim_C9_error_is_atomic_witness :
    prvHandlePropertyUpdate initialDeviceState
      ⟨none, [⟨"", sampleazureiotPROPERTY_TARGET_TEMPERATURE_TEXT, .num 30⟩]⟩ =
      (initialDeviceState, []) :=
  claim_C9_error_is_atomic.2.2 initialDeviceState
    ⟨none, [⟨"", sampleazureiotPROPERTY_TARGET_TEMPERATURE_TEXT, .num 30⟩]⟩
    .malformedVersion rfl

/-- C10: a document whose version extracts but which contains no recognized
top-level `targetTemperature` entry parses to success with the initialised
value 0.0 and the version, so the update path applied to the freshly seeded
device state sets the current temperature to 0.0, lowers the minimum to 0.0
(0.0 being below the 22.0 seed), folds 0.0 into the average
((22 + 0) / 2 = 11), leaves the maximum at 22.0, and emits exactly the
acknowledgment reporting value 0.0 — no maximum-temperature report. -/
theorem claim_C10_no_match_applies_zero (ver : ℕ) (entries : List PropertyEntry)
    (h : ∀ e ∈ entries, 0 < e.componentName.length ∨
      e.name ≠ sampleazureiotPROPERTY_TARGET_TEMPERATURE_TEXT) :
    prvProcessProperties ⟨some ver, entries⟩ = .ok (0, ver) ∧
    prvHandlePropertyUpdate initialDeviceState ⟨some ver, entries⟩ =
      ({ current := 0, maximum := 22, minimum := 0, summation := 22,
         count := 2, average := 11 }, [Emission.ack 0 ver]) := by
  have hp : prvProcessProperties ⟨some ver, entries⟩ = .ok (0, ver) := by
    unfold prvProcessProperties
    dsimp only
    rw [propertyLoop_no_match entries 0 h]
  refine ⟨hp, ?_⟩
  unfold prvHandlePropertyUpdate
  rw [hp]
  dsimp only
  unfold prvUpdateLocalProperties
  dsimp only
  rw [if_neg (by simp [initialDeviceState, sampleazureiotDEFAULT_START_TEMP_CELSIUS]),
    if_pos (by simp [initialDeviceState, sampleazureiotDEFAULT_START_TEMP_CELSIUS])]
  simp [initialDeviceState, sampleazureiotDEFAULT_START_TEMP_CELSIUS,
    sampleazureiotDEFAULT_START_TEMP_COUNT]
  norm_num

/-- C10 witness: a concrete document at version 4 with only a
component-qualified entry and an unknown top-level entry applies 0.0 to the
seeded state and acknowledges value 0.0. -/
theorem claim_C10_no_match_applies_zero_witness :
    prvHandlePropertyUpdate initialDeviceState
      ⟨some 4, [⟨"thermostat2", "targetTemperature", .num 25⟩,
                ⟨"", "fanSpeed", .num 3⟩]⟩ =
      ({ current := 0, maximum := 22, minimum := 0, summation := 22,
         count := 2, average := 11 }, [Emission.ack 0 4]) :=
  (claim_C10_no_match_applies_zero 4
    [⟨"thermostat2", "targetTemperature", .num 25⟩, ⟨"", "fanSpeed", .num 3⟩]
    (by intro e he; simp at he; rcases he with he | he <;> subst he <;> simp <;> decide)).2

/-- C3: command dispatch always sends exactly one response — a request whose
name differs in length or content from `getMaxMinReport` is answered 404
with the empty payload; a matching request whose payload parse fails is
answered 501 with the empty payload; a matching request whose handler
succeeds is answered 200 with the produced max/min report body; no request
goes unanswered. -/
theorem claim_C3_dispatch_total (s : DeviceState) (m : CommandRequest) :
    (prvHandleCommand s m).isSome = true ∧
    (m.pucCommandName ≠ sampleazureiotCOMMAND_MAX_MIN_REPORT →
      prvHandleCommand s m = some (404, sampleazureiotCOMMAND_EMPTY_PAYLOAD)) ∧
    (m.pucCommandName = sampleazureiotCOMMAND_MAX_MIN_REPORT →
      m.payloadSince = none →
      prvHandleCommand s m = some (501, sampleazureiotCOMMAND_EMPTY_PAYLOAD)) ∧
    (∀ since : String,
      m.pucCommandName = sampleazureiotCOMMAND_MAX_MIN_REPORT →
      m.payloadSince = some since →
      prvHandleCommand s m = some (200,
        [WriterItem.beginObject,
         WriterItem.doubleProp sampleazureiotCOMMAND_MAX_TEMP s.maximum,
         WriterItem.doubleProp sampleazureiotCOMMAND_MIN_TEMP s.minimum,
         WriterItem.doubleProp sampleazureiotCOMMAND_TEMP_VERSION s.average,
         WriterItem.stringProp sampleazureiotCOMMAND_START_TIME since,
         WriterItem.stringProp sampleazureiotCOMMAND_END_TIME
           sampleazureiotCOMMAND_FAKE_END_TIME,
         WriterItem.endObject])) := by
  by_cases hname : m.pucCommandName = sampleazureiotCOMMAND_MAX_MIN_REPORT
  · cases hsince : m.payloadSince with
    | none =>
      refine ⟨?_, fun hne => absurd hname hne, fun _ _ => ?_, fun since _ hs => ?_⟩
      · simp [prvHandleCommand, hname, hsince, prvInvokeMaxMinCommand]
      · simp [prvHandleCommand, hname, hsince, prvInvokeMaxMinCommand]
      · exact absurd hs (by simp)
    | some since0 =>
      refine ⟨?_, fun hne => absurd hname hne, fun _ hs => ?_, fun since _ hs => ?_⟩
      · simp [prvHandleCommand, hname, hsince, prvInvokeMaxMinCommand]
      · exact absurd hs (by simp)
      · injection hs with hs
        subst hs
        simp [prvHandleCommand, hname, hsince, prvInvokeMaxMinCommand]
  · have hcond : ¬(m.pucCommandName.length = sampleazureiotCOMMAND_MAX_MIN_REPORT.length ∧
        m.pucCommandName = sampleazureiotCOMMAND_MAX_MIN_REPORT) := by
      intro hand
      exact hname hand.2
    refine ⟨?_, fun _ => ?_, fun heq => absurd heq hname,
      fun since heq _ => absurd heq hname⟩
    · simp [prvHandleCommand, hcond]
    · simp [prvHandleCommand, hcond]

/-- C3 witness: the unknown command name `reboot` is answered 404 with the
empty payload, and a matching request with an unreadable payload is answered
501 with the empty payload. -/
theorem claim_C3_dispatch_total_witness :
    prvHandleCommand initialDeviceState ⟨"reboot", some "t0"⟩ =
      some (404, sampleazureiotCOMMAND_EMPTY_PAYLOAD) ∧
    prvHandleCommand initialDeviceState
      ⟨sampleazureiotCOMMAND_MAX_MIN_REPORT, none⟩ =
      some (501, sampleazureiotCOMMAND_EMPTY_PAYLOAD) :=
  ⟨(claim_C3_dispatch_total initialDeviceState ⟨"reboot", some "t0"⟩).2.1
      (by decide),
   (claim_C3_dispatch_total initialDeviceState
      ⟨sampleazureiotCOMMAND_MAX_MIN_REPORT, none⟩).2.2.1 rfl rfl⟩

/-- C7: end-to-end from the 22.0 seed — applying desired value 25.0 under
version `v1` raises the maximum to 25.0 with the max-changed flag set and
emits the acknowledgment at version `v1` followed by a maximum-temperature
report; applying desired value 20.0 next under version `v2` lowers the
minimum to 20.0, emits only the acknowledgment (no max report), and the
average over the three samples 22.0, 25.0, 20.0 is 67/3, whose
two-decimal rendering is 22.33 (its floor at two decimals is 2233); the
max report appears in the emission list exactly when the max-changed flag
of the corresponding update was true. -/
theorem claim_C7_end_to_end (v1 v2 : ℕ) :
    (prvHandlePropertyUpdate initialDeviceState
      ⟨some v1, [⟨"", sampleazureiotPROPERTY_TARGET_TEMPERATURE_TEXT, .num 25⟩]⟩).1.maximum
        = 25 ∧
    (prvUpdateLocalProperties 25 v1 initialDeviceState).2 = true ∧
    (prvHandlePropertyUpdate initialDeviceState
      ⟨some v1, [⟨"", sampleazureiotPROPERTY_TARGET_TEMPERATURE_TEXT, .num 25⟩]⟩).2
        = [Emission.ack 25 v1, Emission.maxReport 25] ∧
    (prvHandlePropertyUpdate
      (prvHandlePropertyUpdate initialDeviceState
        ⟨some v1, [⟨"", sampleazureiotPROPERTY_TARGET_TEMPERATURE_TEXT, .num 25⟩]⟩).1
      ⟨some v2, [⟨"", sampleazureiotPROPERTY_TARGET_TEMPERATURE_TEXT, .num 20⟩]⟩).1.minimum
        = 20 ∧
    (prvHandlePropertyUpdate
      (prvHandlePropertyUpdate initialDeviceState
        ⟨some v1, [⟨"", sampleazureiotPROPERTY_TARGET_TEMPERATURE_TEXT, .num 25⟩]⟩).1
      ⟨some v2, [⟨"", sampleazureiotPROPERTY_TARGET_TEMPERATURE_TEXT, .num 20⟩]⟩).2
        = [Emission.ack 20 v2] ∧
    (prvHandlePropertyUpdate
      (prvHandlePropertyUpdate initialDeviceState
        ⟨some v1, [⟨"", sampleazureiotPROPERTY_TARGET_TEMPERATURE_TEXT, .num 25⟩]⟩).1
      ⟨some v2, [⟨"", sampleazureiotPROPERTY_TARGET_TEMPERATURE_TEXT, .num 20⟩]⟩).1.average
        = 67 / 3 ∧
    ⌊(prvHandlePropertyUpdate
      (prvHandlePropertyUpdate initialDeviceState
        ⟨some v1, [⟨"", sampleazureiotPROPERTY_TARGET_TEMPERATURE_TEXT, .num 25⟩]⟩).1
      ⟨some v2, [⟨"", sampleazureiotPROPERTY_TARGET_TEMPERATURE_TEXT, .num 20⟩]⟩).1.average
        * 100⌋ = 2233 := by
  have h1 : prvHandlePropertyUpdate initialDeviceState
      ⟨some v1, [⟨"", sampleazureiotPROPERTY_TARGET_TEMPERATURE_TEXT, .num 25⟩]⟩ =
      ({ current := 25, maximum := 25, minimum := 22, summation := 47,
         count := 2, average := 47 / 2 },
       [Emission.ack 25 v1, Emission.maxReport 25]) := by
    simp [prvHandlePropertyUpdate, prvProcessProperties, propertyLoop,
      prvUpdateLocalProperties, initialDeviceState,
      sampleazureiotPROPERTY_TARGET_TEMPERATURE_TEXT,
      sampleazureiotDEFAULT_START_TEMP_CELSIUS,
      sampleazureiotDEFAULT_START_TEMP_COUNT]
    norm_num
  have h2 : prvHandlePropertyUpdate
      ({ current := 25, maximum := 25, minimum := 22, summation := 47,
         count := 2, average := 47 / 2 } : DeviceState)
      ⟨some v2, [⟨"", sampleazureiotPROPERTY_TARGET_TEMPERATURE_TEXT, .num 20⟩]⟩ =
      ({ current := 20, maximum := 25, minimum := 20, summation := 67,
         count := 3, average := 67 / 3 },
       [Emission.ack 20 v2]) := by
    simp [prvHandlePropertyUpdate, prvProcessProperties, propertyLoop,
      prvUpdateLocalProperties, sampleazureiotPROPERTY_TARGET_TEMPERATURE_TEXT]
    norm_num
  have hflag : (prvUpdateLocalProperties 25 v1 initialDeviceState).2 = true := by
    simp [prvUpdateLocalProperties, initialDeviceState,
      sampleazureiotDEFAULT_START_TEMP_CELSIUS]
    norm_num
  rw [h1]
  dsimp only
  rw [h2]
  refine ⟨rfl, hflag, rfl, rfl, rfl, rfl, ?_⟩
  rw [Int.floor_eq_iff]
  norm_num

/-- When every connect attempt fails, the retry loop produces one backoff
delay per remaining attempt, each bounded by the configured cap, and then
returns the failure status after exactly one more connect attempt than
delay. -/
lemma connectRetryLoop_all_fail (rand : ℕ → ℕ) :
    ∀ (k : ℕ) (ctx : BackoffAlgorithmContext) (i : ℕ),
    ctx.maxRetryAttempts - ctx.attemptsDone = k →
    (connectRetryLoop ctx (fun _ => false) rand i).status = 1 ∧
    (connectRetryLoop ctx (fun _ => false) rand i).delays.length = k ∧
    (∀ d ∈ (connectRetryLoop ctx (fun _ => false) rand i).delays,
      d ≤ ctx.maxBackOffDelay) ∧
    (connectRetryLoop ctx (fun _ => false) rand i).connectAttempts = k + 1 := by
  intro k
  induction k with
  | zero =>
    intro ctx i hk
    rw [connectRetryLoop.eq_def]
    rw [if_neg (by simp)]
    have hnb : backoffAlgorithmGetNextBackoff ctx (rand i) = (.retriesExhausted, ctx) := by
      unfold backoffAlgorithmGetNextBackoff
      rw [if_neg (by omega)]
    split
    · simp
    · rename_i d ctx2 heq
      rw [hnb] at heq
      injection heq with h1 h2
      simp at h1
  | succ n ih =>
    intro ctx i hk
    rw [connectRetryLoop.eq_def]
    rw [if_neg (by simp)]
    have hnb : backoffAlgorithmGetNextBackoff ctx (rand i) =
        (.success (rand i %
          (min ctx.maxBackOffDelay (ctx.backOffBase * 2 ^ ctx.attemptsDone) + 1)),
         { ctx with attemptsDone := ctx.attemptsDone + 1 }) := by
      unfold backoffAlgorithmGetNextBackoff
      rw [if_pos (by omega)]
    split
    · rename_i snd heq
      rw [hnb] at heq
      injection heq with h1 h2
      simp at h1
    · rename_i d ctx2 heq
      rw [hnb] at heq
      injection heq with h1 h2
      injection h1 with h1
      subst h2
      subst h1
      dsimp only
      have hrec := ih { ctx with attemptsDone := ctx.attemptsDone + 1 } (i + 1)
        (by dsimp only; omega)
      refine ⟨hrec.1, ?_, ?_, ?_⟩
      · simp only [List.length_cons, hrec.2.1]
      · intro x hx
        simp only [List.mem_cons] at hx
        rcases hx with hx | hx
        · subst hx
          calc rand i % (min ctx.maxBackOffDelay
                (ctx.backOffBase * 2 ^ ctx.attemptsDone) + 1)
              ≤ min ctx.maxBackOffDelay (ctx.backOffBase * 2 ^ ctx.attemptsDone) :=
                Nat.le_of_lt_succ (Nat.mod_lt _ (Nat.succ_pos _))
            _ ≤ ctx.maxBackOffDelay := min_le_left _ _
        · exact hrec.2.2.1 x hx
      · simp only [hrec.2.2.2]

/-- C4: the supervisor starts from a freshly initialized backoff context, and
a run in which every transport connect fails produces, with the configured
bound of 5 attempts, exactly 5 backoff delays each no greater than the
5000 ms cap; the backoff consultation after the 5 delays (the 6th) reports
exhaustion producing no delay, and the supervisor returns the failure
status after exactly one more connect attempt, with no further attempt
after exhaustion. -/
theorem claim_C4_retry_exhaustion (rand : ℕ → ℕ) :
    (prvConnectToServerWithBackoffRetries (fun _ => false) rand).status = 1 ∧
    (prvConnectToServerWithBackoffRetries (fun _ => false) rand).delays.length =
      sampleazureiotRETRY_MAX_ATTEMPTS ∧
    (∀ d ∈ (prvConnectToServerWithBackoffRetries (fun _ => false) rand).delays,
      d ≤ sampleazureiotRETRY_MAX_BACKOFF_DELAY_MS) ∧
    (prvConnectToServerWithBackoffRetries (fun _ => false) rand).connectAttempts =
      sampleazureiotRETRY_MAX_ATTEMPTS + 1 ∧
    (∀ r : ℕ,
      (backoffAlgorithmGetNextBackoff
        { backOffBase := sampleazureiotRETRY_BACKOFF_BASE_MS
          maxBackOffDelay := sampleazureiotRETRY_MAX_BACKOFF_DELAY_MS
          maxRetryAttempts := sampleazureiotRETRY_MAX_ATTEMPTS
          attemptsDone := sampleazureiotRETRY_MAX_ATTEMPTS } r).1 =
        .retriesExhausted) := by
  have h := connectRetryLoop_all_fail rand sampleazureiotRETRY_MAX_ATTEMPTS
    (backoffAlgorithmInitializeParams sampleazureiotRETRY_BACKOFF_BASE_MS
      sampleazureiotRETRY_MAX_BACKOFF_DELAY_MS sampleazureiotRETRY_MAX_ATTEMPTS) 0
    (by simp [backoffAlgorithmInitializeParams])
  refine ⟨h.1, h.2.1, fun d hd => h.2.2.1 d hd, h.2.2.2, ?_⟩
  intro r
  unfold backoffAlgorithmGetNextBackoff
  rw [if_neg (lt_irrefl _)]

/-- C5 counterexample: a streaming iteration in which only the
max-temperature report publish fails leaves the session in the streaming
phase — the failure is logged, no transition to the disconnecting phase
happens; and a telemetry failure halts the process by assertion rather than
transitioning to the disconnecting phase. -/
theorem claim_C5_counterexample :
    streamingStep { telemetryOk := true, maxReportOk := false, processLoopOk := true } =
      SessionPhase.streaming ∧
    streamingStep { telemetryOk := false, maxReportOk := true, processLoopOk := true } =
      SessionPhase.halted ∧
    SessionPhase.streaming ≠ SessionPhase.disconnecting ∧
    SessionPhase.halted ≠ SessionPhase.disconnecting := by
  decide

/-- C5 amended: in the streaming phase a telemetry-publish or poll failure
halts the process through `configASSERT` while a max-temperature report
publish failure is only logged and streaming continues; no protocol-level
failure ever transitions the session to the disconnecting phase — the
unsubscribe/disconnect teardown after the streaming loop is unreachable. -/
theorem claim_C5_streaming_failures_amended (o : StreamingOutcome) :
    streamingStep o =
      (if o.telemetryOk && o.processLoopOk then SessionPhase.streaming
       else SessionPhase.halted) ∧
    streamingStep o ≠ SessionPhase.disconnecting := by
  rcases o with ⟨t, m, p⟩
  cases t <;> cases m <;> cases p <;> decide

/-- C6 counterexample: with every transport connect failing, the supervisor
returns the nonzero exhaustion status 1, and the session loop's
`configASSERT( ulStatus == 0 )` on that status halts the process — it
neither restarts the cycle nor reaches the connected session. -/
theorem claim_C6_counterexample :
    (prvConnectToServerWithBackoffRetries (fun _ => false) (fun _ => 0)).status = 1 ∧
    connectPhaseStep 1 = SessionPhase.halted ∧
    SessionPhase.halted ≠ SessionPhase.connecting ∧
    SessionPhase.halted ≠ SessionPhase.connected := by
  have h := connectRetryLoop_all_fail (fun _ => 0) sampleazureiotRETRY_MAX_ATTEMPTS
    (backoffAlgorithmInitializeParams sampleazureiotRETRY_BACKOFF_BASE_MS
      sampleazureiotRETRY_MAX_BACKOFF_DELAY_MS sampleazureiotRETRY_MAX_ATTEMPTS) 0
    (by simp [backoffAlgorithmInitializeParams])
  exact ⟨h.1, rfl, by decide, by decide⟩

/-- C6 amended: when the connection supervisor reports a nonzero status
(retry exhaustion), the session loop's assertion fails and the process
halts; the loop does not proceed and does not restart from the top. -/
theorem claim_C6_exhaustion_halts_amended (st : ℕ) (h : st ≠ 0) :
    connectPhaseStep st = SessionPhase.halted ∧
    connectPhaseStep st ≠ SessionPhase.connecting := by
  unfold connectPhaseStep
  rw [if_neg h]
  exact ⟨rfl, by decide⟩

/-- C6 amended witness: the exhaustion status 1 halts the session loop. -/
theorem claim_C6_exhaustion_halts_amended_witness :
    (1 : ℕ) ≠ 0 ∧ connectPhaseStep 1 = SessionPhase.halted ∧
      connectPhaseStep 1 ≠ SessionPhase.connecting :=
  ⟨by decide, claim_C6_exhaustion_halts_amended 1 (by decide)⟩
